import Mathlib

/-!
Shallow embedding of the AMBA AXI4 / AXI4-Lite cocotb bus drivers
(src/cocotb/drivers/amba.py) and proofs about the behaviour of the
three components: `AXI4LiteMaster`, `AXI4Slave` (burst-capable) and
`AXI4LiteSlave`.  Each definition cites the Python lines it embeds.
-/

/-- Protocol error raised by the master when a completed transaction
carries a non-OKAY response (amba.py lines 39-40, 161-163, 206-208).
The exception message carries the address and the numeric response code;
we keep both fields. -/
structure AXIProtocolError where
  address : Nat
  resp : Nat
deriving DecidableEq, Repr

/-- Embedding of the tail of `AXI4LiteMaster.write` (amba.py lines
152-165): after the response handshake, the sampled `BRESP` value
`result` is tested with `if int(result):` and the call either raises
`AXIProtocolError` (carrying the address and the code) or returns the
response value. -/
def axi4LiteMasterWrite (address : Nat) (bresp : Nat) :
    Except AXIProtocolError Nat :=
  if bresp ≠ 0 then
    Except.error { address := address, resp := bresp }
  else
    Except.ok bresp

/-- Embedding of the tail of `AXI4LiteMaster.read` (amba.py lines
198-210): after the `RVALID && RREADY` handshake the master captures
`RDATA` and `RRESP`; `if int(result):` raises `AXIProtocolError`, else
the data value is returned. -/
def axi4LiteMasterRead (address : Nat) (rresp rdata : Nat) :
    Except AXIProtocolError Nat :=
  if rresp ≠ 0 then
    Except.error { address := address, resp := rresp }
  else
    Except.ok rdata

/-- Embedding of `AXI4LiteMaster.__len__` (amba.py lines 212-213):
`return 2**len(self.bus.ARADDR)`, where `len(self.bus.ARADDR)` is the
bit width of the read-address signal. -/
def axi4LiteMasterLen (araddrWidth : Nat) : Nat :=
  2 ^ araddrWidth

/-- Embedding of `AXI4Slave._size_to_bytes_in_beat` (amba.py lines
264-267): `if AxSIZE < 7: return 2 ** AxSIZE` and `return None`
otherwise.  The `None` result makes every downstream use of the beat
width fail (the driver immediately computes `bytes_in_beat*8`, which
raises on `None`), so a size of 7 or more aborts the burst with an
error rather than being clamped. -/
def sizeToBytesInBeat (axsize : Nat) : Option Nat :=
  if axsize < 7 then some (2 ^ axsize) else none

/-- Burst geometry derived in `AXI4Slave._write_data` and
`AXI4Slave._read_data` (amba.py lines 289-290 and 338-339):
`burst_length = _awlen + 1` and
`bytes_in_beat = self._size_to_bytes_in_beat(_awsize)`.  The result is
`none` exactly when the size encoding is undefined. -/
def axi4BurstGeometry (axlen axsize : Nat) : Option (Nat × Nat) :=
  match sizeToBytesInBeat axsize with
  | some b => some (axlen + 1, b)
  | none => none

/-- Byte range touched by one beat, shared by the write path (amba.py
lines 311-313) and the read path (lines 360-362):
`_burst_diff = burst_length - burst_count`,
`_st = addr + _burst_diff * bytes_in_beat`,
`_end = addr + (_burst_diff + 1) * bytes_in_beat`. -/
def beatByteRange (axaddr bytesInBeat burstLength burstCount : Nat) :
    Nat × Nat :=
  let burst_diff := burstLength - burstCount
  (axaddr + burst_diff * bytesInBeat,
   axaddr + (burst_diff + 1) * bytesInBeat)

/-- `RLAST` driven by the read loop of `AXI4Slave._read_data` (amba.py
lines 365-366): `if burst_count == 1: self.bus.RLAST <= 1`, and it is
deasserted again right after the clock edge (line 369), so it is high
exactly for the beat whose remaining-beat counter is 1. -/
def axi4SlaveRLASTHigh (burstCount : Nat) : Bool :=
  burstCount == 1

/-- Beats of one read burst in issue order, mirroring the loop of
`AXI4Slave._read_data` (amba.py lines 352-371): `burst_count` starts at
`burst_length` and is decremented after each beat until it reaches 0;
each beat carries its byte range and the `RLAST` level driven with it. -/
def axi4BurstLoop (axaddr bytesInBeat burstLength : Nat) :
    Nat → List ((Nat × Nat) × Bool)
  | 0 => []
  | bc + 1 =>
    (beatByteRange axaddr bytesInBeat burstLength (bc + 1),
     axi4SlaveRLASTHigh (bc + 1))
      :: axi4BurstLoop axaddr bytesInBeat burstLength bc

/-- Whole read burst of `AXI4Slave._read_data` for a latched
`(ARADDR, ARLEN, ARSIZE)` triple: geometry from lines 338-339, beat
loop from lines 352-371.  `none` when the size encoding is undefined. -/
def axi4ReadBurstBeats (araddr arlen arsize : Nat) :
    Option (List ((Nat × Nat) × Bool)) :=
  match axi4BurstGeometry arlen arsize with
  | some (burstLength, bytesInBeat) =>
    some (axi4BurstLoop araddr bytesInBeat burstLength burstLength)
  | none => none

/-- One access to the backing memory image.  The slaves touch their
memory only through byte-range reads (`self._memory[_st:_end]`,
`self.memory[_araddr:...]`) and byte-range writes
(`self._memory[_st:_end] = ...`, `self.memory[addr+idx] = value`),
so a transaction is summarised by the ordered list of such accesses. -/
inductive MemOp
  | readRange (st en : Nat)
  | writeRange (st : Nat) (data : List Nat)
deriving DecidableEq, Repr

/-- Semantics of one memory access on a byte-addressed image
(`Nat → Nat`): a range read returns the bytes and leaves the image
untouched; a range write replaces the bytes of `[st, st+len)`. -/
def runMemOp (mem : Nat → Nat) : MemOp → List Nat × (Nat → Nat)
  | MemOp.readRange st en =>
    ((List.range (en - st)).map (fun i => mem (st + i)), mem)
  | MemOp.writeRange st data =>
    ([], fun a =>
      if st ≤ a ∧ a < st + data.length then data.getD (a - st) (mem a)
      else mem a)

/-- Run a list of memory accesses in order, collecting the data each
one returned and threading the image. -/
def runMemOps (mem : Nat → Nat) : List MemOp → List (List Nat) × (Nat → Nat)
  | [] => ([], mem)
  | op :: rest =>
    let r := runMemOp mem op
    let rs := runMemOps r.2 rest
    (r.1 :: rs.1, rs.2)

/-- Memory accesses performed by the read loop of
`AXI4Slave._read_data` (amba.py lines 356-371): each beat performs
exactly one byte-range read `self._memory[_st:_end].tostring()` (line
363); the loop never assigns into the memory image. -/
def axi4SlaveReadOpsLoop (araddr bytesInBeat burstLength : Nat) :
    Nat → List MemOp
  | 0 => []
  | bc + 1 =>
    let r := beatByteRange araddr bytesInBeat burstLength (bc + 1)
    MemOp.readRange r.1 r.2
      :: axi4SlaveReadOpsLoop araddr bytesInBeat burstLength bc

/-- Memory accesses performed by the write loop of
`AXI4Slave._write_data` (amba.py lines 307-318): each beat assigns the
byte image of the sampled `WDATA` word into
`self._memory[_st:_end]` (line 314).  `wordBytes d` is the byte buffer
of the word sampled on the beat with `_burst_diff = d`. -/
def axi4SlaveWriteOpsLoop (awaddr bytesInBeat burstLength : Nat)
    (wordBytes : Nat → List Nat) : Nat → List MemOp
  | 0 => []
  | bc + 1 =>
    let r := beatByteRange awaddr bytesInBeat burstLength (bc + 1)
    MemOp.writeRange r.1 (wordBytes (burstLength - (bc + 1)))
      :: axi4SlaveWriteOpsLoop awaddr bytesInBeat burstLength wordBytes bc

/-- Memory accesses performed by one iteration of
`AXI4LiteSlave._read_data` (amba.py lines 519-555): a single byte-range
read `self.memory[_araddr:_araddr+self.bytes_per_beat]` (line 535); the
task never assigns into the memory image. -/
def liteSlaveReadOps (araddr bytesPerBeat : Nat) : List MemOp :=
  [MemOp.readRange araddr (araddr + bytesPerBeat)]

/-- Byte buffer produced by `struct.pack(_pack_str, int(_wdata))` in
`AXI4LiteSlave._write_data` (amba.py lines 485-488): `nbytes` is 4 for
format `I` and 8 for `Q`; `<` puts the least significant byte first,
`>` the most significant byte first.  Each byte is the value of the
corresponding 8-bit slice of `v`. -/
def structPack (bigEndian : Bool) (nbytes v : Nat) : List Nat :=
  let le := (List.range nbytes).map (fun i => v / 256 ^ i % 256)
  if bigEndian then le.reverse else le

/-- Binary string of a bit-vector value as produced by
`str(self.bus.WSTRB.value)` in amba.py line 474: `width` characters,
most significant bit first, each character `1` or `0`. -/
def binstr (width v : Nat) : List Char :=
  (List.range width).map
    (fun i => if v / 2 ^ (width - 1 - i) % 2 = 1 then '1' else '0')

/-- Python truthiness of a string: `bool(s)` is `True` exactly when the
string is nonempty.  In particular `bool("0")` is `True`. -/
def pyStrTruthy (s : List Char) : Bool :=
  !s.isEmpty

/-- Python string indexing `s[idx]`, which yields a one-character
string.  Out-of-range indexing raises `IndexError` in Python; the
driver only indexes within the strobe width, and the model returns the
empty string off the end. -/
def strIndex (s : List Char) (i : Nat) : List Char :=
  match s.get? i with
  | some c => [c]
  | none => []

/-- Byte-store loop of `AXI4LiteSlave._write_data` (amba.py lines
490-493):
`for idx,value in enumerate(_data): if bool(_wstrb[idx]):`
`self.memory[self._awaddr+idx] = value`.
Note the guard is the Python truthiness of the one-character string
`_wstrb[idx]`, not a test of the strobe bit. -/
def liteWriteBytesLoop (awaddr : Nat) (wstrb : List Char) :
    List Nat → Nat → (Nat → Nat) → (Nat → Nat)
  | [], _, mem => mem
  | v :: rest, idx, mem =>
    let mem1 :=
      if pyStrTruthy (strIndex wstrb idx) then
        fun a => if a = awaddr + idx then v else mem a
      else mem
    liteWriteBytesLoop awaddr wstrb rest (idx + 1) mem1

/-- Memory effect of the pack-and-store sequence of
`AXI4LiteSlave._write_data` (amba.py lines 485-493) as the author wrote
it, i.e. the semantics it would have were `struct` importable: `_wdata`
is the sampled `WDATA` integer, `_wstrb` the binary string of the
sampled `WSTRB` (width = `bytesPerBeat` bits), `_data` the packed byte
buffer, and the bytes are stored at `awaddr + idx` under the (broken)
string truthiness guard.  In the shipped module this loop is
unreachable: evaluating `struct.pack` at line 488 raises `NameError`
first (see `pyLookup` and `liteSlaveWriteTxn`). -/
def liteSlaveWriteData (bigEndian : Bool) (bytesPerBeat awaddr wdata wstrb : Nat)
    (mem : Nat → Nat) : Nat → Nat :=
  liteWriteBytesLoop awaddr (binstr bytesPerBeat wstrb)
    (structPack bigEndian bytesPerBeat wdata) 0 mem

/-- Names bound at module scope of amba.py by its imports (lines
29-36): `import cocotb`, the `from cocotb...` imports, `import
binascii` and `import array`.  `struct` is not among them. -/
def ambaModuleNames : List String :=
  ["cocotb", "RisingEdge", "ReadOnly", "Lock", "BusDriver", "ReturnValue",
   "BinaryValue", "binascii", "array"]

/-- Python resolution of a global name inside amba.py: a name that is
not bound at module scope raises `NameError` when evaluated. -/
def pyLookup (name : String) : Except String Unit :=
  if name ∈ ambaModuleNames then Except.ok ()
  else Except.error ("NameError: name " ++ name ++ " is not defined")

/-- One iteration of the write-completion path of
`AXI4LiteSlave._write_data` (amba.py lines 484-497).  Line 488
evaluates `struct.pack(...)`, which first resolves the global name
`struct`; amba.py never imports it, so the lookup raises `NameError`
and the task dies before any byte is stored and before
`self.bus.BRESP <= self.bresp` (line 496) is reached: on the error
path no memory effect and no driven `BRESP` value are produced. -/
def liteSlaveWriteTxn (bresp : Nat) (bigEndian : Bool)
    (bytesPerBeat awaddr wdata wstrb : Nat) (mem : Nat → Nat) :
    Except String ((Nat → Nat) × Nat) :=
  match pyLookup "struct" with
  | Except.error e => Except.error e
  | Except.ok () =>
    Except.ok
      (liteSlaveWriteData bigEndian bytesPerBeat awaddr wdata wstrb mem, bresp)

/-- Embedding of `AXI4LiteSlave.setWrResponse` (amba.py lines 427-430):
`if not(bresp in range(0,4)): raise ValueError(...)` then
`self.bresp = bresp`.  Membership in `range(0,4)` is `0 ≤ code < 4`;
the argument is modelled as `Int` since a Python caller may pass a
negative value. -/
def setWrResponse (code : Int) : Except String Int :=
  if ¬ (0 ≤ code ∧ code < 4) then
    Except.error "Valid BRESP values range from 0b00 to 0b11"
  else
    Except.ok code

/-- Embedding of `AXI4LiteSlave.setRdResponse` (amba.py lines
432-435), identical to the write variant with `self.rresp`. -/
def setRdResponse (code : Int) : Except String Int :=
  if ¬ (0 ≤ code ∧ code < 4) then
    Except.error "Valid RRESP values range from 0b00 to 0b11"
  else
    Except.ok code

/-- State of the `self.bresp` field across a `setWrResponse` call: the
`raise` happens before the assignment, so on error the previously
configured code is kept. -/
def applySetWrResponse (cur code : Int) : Int :=
  match setWrResponse code with
  | Except.ok b => b
  | Except.error _ => cur

/-- State of the `self.rresp` field across a `setRdResponse` call. -/
def applySetRdResponse (cur code : Int) : Int :=
  match setRdResponse code with
  | Except.ok r => r
  | Except.error _ => cur

/-- Width validation in `AXI4LiteSlave.__init__` (amba.py lines
399-402): `if not(self.data_width in [32,64]): raise ValueError(...)`.
The message reproduces the adjacent-string-literal concatenation of the
source, which omits a space after `AXI4-Lite`. -/
def liteSlaveWidthCheck (dataWidth : Nat) : Except String Unit :=
  if ¬ (dataWidth = 32 ∨ dataWidth = 64) then
    Except.error ("Bus data width of " ++ toString dataWidth ++
      " is not valid. AXI4-Liteprotocol only supports bit widths of 32 or 64")
  else
    Except.ok ()

/-- Python truthiness of an `Optional[int]` variable such as
`self._awaddr`: `None` and `0` are falsy, every other int is truthy.
This is the guard of `while self._awaddr:` in amba.py line 454. -/
def pyOptTruthy : Option Nat → Bool
  | none => false
  | some n => n != 0

/-- Control point of the `AXI4LiteSlave._write_address` task (amba.py
lines 437-456): `idle` is the top of the outer loop (address-ready
asserted, waiting for `AWVALID`); `waiting` is the inner
`while self._awaddr:` loop entered after an address is latched. -/
inductive WAPhase
  | idle
  | waiting
deriving DecidableEq, Repr

/-- Observable state of the write-address task: its control point, the
`AWREADY` level it drives, and the shared `(self._awaddr, self._awprot)`
latch. -/
structure LiteSlaveWAState where
  phase : WAPhase
  awready : Bool
  awaddr : Option Nat
  awprot : Option Nat

/-- Initial state of the write-address task (amba.py lines 407-412):
the latch starts at `None` and `AWREADY` is driven to 1. -/
def waInit : LiteSlaveWAState :=
  { phase := WAPhase.idle, awready := true, awaddr := none, awprot := none }

/-- One clock cycle of `AXI4LiteSlave._write_address` (amba.py lines
438-456) with the values of `AWVALID`, `AWADDR` and `AWPROT` sampled at
the edge.  In `idle`, a valid address deasserts `AWREADY` and fills the
latch; otherwise `AWREADY` stays asserted.  In `waiting`, the task
re-checks `while self._awaddr:` — a *truthiness* test of the latched
address — and either keeps `AWREADY` low or falls back to the loop top,
where `AWREADY <= 1` is driven again, without the latch having been
cleared by the data-phase task. -/
def waStep (s : LiteSlaveWAState) (awvalid : Bool) (awaddrIn awprotIn : Nat) :
    LiteSlaveWAState :=
  match s.phase with
  | WAPhase.idle =>
    if awvalid then
      { phase := WAPhase.waiting, awready := false,
        awaddr := some awaddrIn, awprot := some awprotIn }
    else
      { s with awready := true }
  | WAPhase.waiting =>
    if pyOptTruthy s.awaddr then
      { s with awready := false }
    else
      { s with phase := WAPhase.idle, awready := true }

/-- Run the write-address task over a list of per-cycle
`(AWVALID, AWADDR, AWPROT)` samples, covering a window in which the
data-phase task has not yet completed the transaction (so the latch is
never cleared to `None` externally). -/
def waRun (s : LiteSlaveWAState) : List (Bool × Nat × Nat) → LiteSlaveWAState
  | [] => s
  | (v, a, p) :: rest => waRun (waStep s v a p) rest

/-- Signals of the `AXI4LiteMaster` bus (amba.py lines 49-53). -/
inductive LMSignal
  | awvalid | awaddr | awready
  | wvalid | wready | wdata | wstrb
  | bvalid | bready | bresp
  | arvalid | araddr | arready
  | rvalid | rready | rresp | rdata
deriving DecidableEq, Repr

/-- Signal assignments performed by `AXI4LiteMaster.__init__` (amba.py
lines 59-63): the `setimmediatevalue` calls, in order. -/
def lmInitAssignments : List (LMSignal × Nat) :=
  [(LMSignal.awvalid, 0), (LMSignal.wvalid, 0), (LMSignal.arvalid, 0),
   (LMSignal.bready, 1), (LMSignal.rready, 1)]

/-- Every signal the master assigns after construction: the `<=` drives
of `_send_write_address` (amba.py lines 79-88), `_send_write_data`
(lines 100-110) and `read` (lines 186-196); `write` itself drives no
signal directly.  `BREADY` and `RREADY` never appear. -/
def lmDrivenAfterInit : List LMSignal :=
  [LMSignal.awaddr, LMSignal.awvalid, LMSignal.awvalid,
   LMSignal.wdata, LMSignal.wvalid, LMSignal.wstrb, LMSignal.wvalid,
   LMSignal.araddr, LMSignal.arvalid, LMSignal.arvalid]

/-- Value of a master-driven ready signal over time: its initial value
from `__init__`, unchanged at every later cycle because the signal is
not in `lmDrivenAfterInit`. -/
def lmReadyTrace (s : LMSignal) : Nat → Bool :=
  fun _ => ((lmInitAssignments.lookup s).getD 0) != 0

/-- Response-wait loop of `AXI4LiteMaster.write` (amba.py lines
152-157) and the data-wait loop of `read` (lines 198-204): starting at
cycle `t`, sample `valid && ready` in the read-only window each cycle
and stop at the first cycle where both are high.  `fuel` bounds the
search so the model stays executable; `none` means the peer never
completed within the window. -/
def firstHandshakeCycle (valid ready : Nat → Bool) :
    Nat → Nat → Option Nat
  | 0, _ => none
  | fuel + 1, t =>
    if valid t && ready t then some t
    else firstHandshakeCycle valid ready fuel (t + 1)

/-- First cycle at which the peer asserts its valid signal, searched
over the same bounded window. -/
def firstAssertCycle (valid : Nat → Bool) : Nat → Nat → Option Nat
  | 0, _ => none
  | fuel + 1, t =>
    if valid t then some t
    else firstAssertCycle valid fuel (t + 1)

/-- Expected beat list for an 8-beat burst (`ARLEN = 7`) of 4-byte
beats (`ARSIZE = 2`) starting at `0x1000 = 4096`: beat `k` covers
`[4096 + 4k, 4096 + 4(k+1))` and only the final beat carries `RLAST`. -/
def c3ExpectedBeats : List ((Nat × Nat) × Bool) :=
  [((4096, 4100), false), ((4100, 4104), false), ((4104, 4108), false),
   ((4108, 4112), false), ((4112, 4116), false), ((4116, 4120), false),
   ((4120, 4124), false), ((4124, 4128), true)]

/-- C2: for every completed master transaction, `write` raises
`AXIProtocolError` exactly when the sampled `BRESP` is nonzero and
otherwise returns the response code, and `read` raises exactly when the
sampled `RRESP` is nonzero and otherwise returns the sampled data. -/
theorem c2_master_response_errors (address bresp rresp rdata : Nat) :
    ((∃ e, axi4LiteMasterWrite address bresp = Except.error e) ↔ bresp ≠ 0)
    ∧ (bresp = 0 → axi4LiteMasterWrite address bresp = Except.ok bresp)
    ∧ (bresp ≠ 0 → axi4LiteMasterWrite address bresp =
        Except.error { address := address, resp := bresp })
    ∧ ((∃ e, axi4LiteMasterRead address rresp rdata = Except.error e) ↔ rresp ≠ 0)
    ∧ (rresp = 0 → axi4LiteMasterRead address rresp rdata = Except.ok rdata)
    ∧ (rresp ≠ 0 → axi4LiteMasterRead address rresp rdata =
        Except.error { address := address, resp := rresp }) := by
  unfold axi4LiteMasterWrite axi4LiteMasterRead
  by_cases hb : bresp = 0 <;> by_cases hr : rresp = 0 <;>
    simp [hb, hr]

/-- Concrete instance of `c2_master_response_errors`: a write that
samples `BRESP = 2` fails with code 2, and a read that samples
`RRESP = 0` returns the data. -/
theorem c2_master_response_errors_witness :
    axi4LiteMasterWrite 4 2 = Except.error { address := 4, resp := 2 }
    ∧ axi4LiteMasterRead 4 0 9 = Except.ok 9 :=
  ⟨(c2_master_response_errors 4 2 0 9).2.2.1 (by decide),
   (c2_master_response_errors 4 2 0 9).2.2.2.2.1 rfl⟩

/-- C8: the master length operation returns 2 to the power of the
address-bus width, which is the number of distinct bit patterns of the
read-address signal, i.e. the size of the address space. -/
theorem c8_master_length (w : Nat) :
    axi4LiteMasterLen w = Fintype.card (Fin w → Fin 2) := by
  simp [axi4LiteMasterLen, Fintype.card_fun]

/-- C3: the 8-beat burst with `ARLEN = 7`, `ARSIZE = 2` at address
`0x1000` produces exactly the beat ranges `[0x1000,0x1004)` through
`[0x101C,0x1020)`, adjacent (end of each beat = start of the next, so
strictly increasing and non-overlapping), each nonempty, with `RLAST`
high exactly on the final beat (index 7). -/
theorem c3_burst_addressing :
    axi4ReadBurstBeats 4096 7 2 = some c3ExpectedBeats
    ∧ List.Chain' (fun r s : Nat × Nat => r.2 = s.1)
        (c3ExpectedBeats.map Prod.fst)
    ∧ (c3ExpectedBeats.map Prod.fst).all (fun r => decide (r.1 < r.2)) = true
    ∧ c3ExpectedBeats.map Prod.snd =
        [false, false, false, false, false, false, false, true] := by
  refine ⟨by decide, ?_, by decide, by decide⟩
  simp [c3ExpectedBeats]

/-- C7: for every latched burst request the geometry is
`beats = AxLEN + 1` and `bytes_per_beat = 2 ^ AxSIZE` whenever
`AxSIZE < 7`; a size of 7 or more yields no geometry (the burst is
aborted with an error rather than clamped). -/
theorem c7_burst_geometry (axlen axsize : Nat) :
    (axsize < 7 → axi4BurstGeometry axlen axsize = some (axlen + 1, 2 ^ axsize))
    ∧ (¬ axsize < 7 → axi4BurstGeometry axlen axsize = none) := by
  constructor <;> intro h <;> simp [axi4BurstGeometry, sizeToBytesInBeat, h]

/-- Concrete instance of `c7_burst_geometry`: `AxLEN = 7`, `AxSIZE = 2`
gives 8 beats of 4 bytes, and `AxSIZE = 7` gives no geometry. -/
theorem c7_burst_geometry_witness :
    axi4BurstGeometry 7 2 = some (7 + 1, 2 ^ 2)
    ∧ axi4BurstGeometry 0 7 = none :=
  ⟨(c7_burst_geometry 7 2).1 (by decide),
   (c7_burst_geometry 0 7).2 (by decide)⟩

/-- Accesses of the burst-slave read loop leave the memory image
untouched, for any remaining-beat count. -/
theorem readOpsLoopPure (araddr bytesInBeat burstLength : Nat) :
    ∀ (bc : Nat) (mem : Nat → Nat),
      (runMemOps mem (axi4SlaveReadOpsLoop araddr bytesInBeat burstLength bc)).2
        = mem
  | 0, _ => rfl
  | bc + 1, mem => by
    simp [axi4SlaveReadOpsLoop, runMemOps, runMemOp,
      readOpsLoopPure araddr bytesInBeat burstLength bc]

/-- C10: no read transaction mutates the memory image — every byte is
unchanged after the burst-slave read loop (any address, beat width,
burst length and remaining-beat count) and after the Lite-slave read
task; only write-path beats carry write accesses. -/
theorem c10_reads_pure (mem : Nat → Nat)
    (araddr bytesInBeat burstLength bc bytesPerBeat a : Nat) :
    (runMemOps mem (axi4SlaveReadOpsLoop araddr bytesInBeat burstLength bc)).2 a
      = mem a
    ∧ (runMemOps mem (liteSlaveReadOps araddr bytesPerBeat)).2 a = mem a := by
  constructor
  · rw [readOpsLoopPure araddr bytesInBeat burstLength bc mem]
  · rfl

/-- C1 (code bug): the byte-store guard `bool(_wstrb[idx])` tests the
truthiness of a one-character string, which is always `True`, so a
write with strobe `0b0101` of value `0x04030201` over prior content
`0xAA` at address 16 overwrites byte 1 (address 17) with `0x02` and
byte 3 (address 19) with `0x04` instead of retaining `0xAA`. -/
theorem c1_strobe_guard_always_true_eval :
    liteSlaveWriteData false 4 16 0x04030201 5 (fun _ => 0xAA) 17 = 0x02
    ∧ liteSlaveWriteData false 4 16 0x04030201 5 (fun _ => 0xAA) 19 = 0x04
    ∧ binstr 4 5 = ['0', '1', '0', '1']
    ∧ pyStrTruthy (strIndex (binstr 4 5) 1) = true := by
  refine ⟨by decide, by decide, by decide, by decide⟩

/-- C4 (code bug): the wait loop `while self._awaddr:` tests Python
truthiness, which is false for the latched address 0, so after a write
address of 0 is latched the task re-asserts `AWREADY` on the next cycle
and accepts a second address (overwriting the latch) although the
transaction has not completed and the latch was never cleared to
`None`; for a nonzero address (1) the task correctly keeps `AWREADY`
deasserted and the latch intact. -/
theorem c4_awaddr_zero_truthiness_eval :
    (waRun waInit [(true, 0, 0), (false, 0, 0)]).awready = true
    ∧ (waRun waInit [(true, 0, 0), (false, 0, 0)]).awaddr = some 0
    ∧ (waRun waInit [(true, 0, 0), (false, 0, 0), (true, 7, 0)]).awaddr = some 7
    ∧ (waRun waInit [(true, 1, 0), (false, 0, 0)]).awready = false
    ∧ (waRun waInit [(true, 1, 0), (false, 0, 0), (true, 7, 0)]).awready = false
    ∧ (waRun waInit [(true, 1, 0), (false, 0, 0), (true, 7, 0)]).awaddr = some 1 := by
  refine ⟨rfl, rfl, rfl, rfl, rfl, rfl⟩

/-- A response wait against a peer that never asserts valid does not
terminate within any bounded window. -/
theorem neverValidNeverCompletes (ready : Nat → Bool) :
    ∀ (fuel t : Nat),
      firstHandshakeCycle (fun _ => false) ready fuel t = none
  | 0, _ => rfl
  | fuel + 1, t => by
    simp [firstHandshakeCycle, neverValidNeverCompletes ready fuel (t + 1)]

/-- C5 (code bug): `setWrResponse(2)` itself succeeds, but no
subsequent write transaction ever drives `BRESP`: completing a write
evaluates `struct.pack` at line 488 and amba.py never imports `struct`,
so the write-data task dies with `NameError` before
`self.bus.BRESP <= self.bresp` (line 496).  `BVALID` is never asserted,
the master response wait of lines 152-157 never terminates, and no
write fails with an `AXIProtocolError` carrying code 2 as the claim
requires. -/
theorem c5_write_path_name_error_eval :
    setWrResponse 2 = Except.ok 2
    ∧ pyLookup "struct" = Except.error "NameError: name struct is not defined"
    ∧ liteSlaveWriteTxn 2 false 4 16 0x04030201 5 (fun _ => 0xAA)
        = Except.error "NameError: name struct is not defined"
    ∧ (∀ (fuel t : Nat),
        firstHandshakeCycle (fun _ => false) (lmReadyTrace LMSignal.bready)
          fuel t = none) := by
  refine ⟨rfl, ?_, ?_, fun fuel t => neverValidNeverCompletes _ fuel t⟩
  · simp [pyLookup, ambaModuleNames]
  · simp [liteSlaveWriteTxn, pyLookup, ambaModuleNames]

/-- C6: `setWrResponse` and `setRdResponse` succeed exactly when the
code is one of 0, 1, 2, 3 and otherwise raise, leaving the previously
configured code unchanged; the Lite-slave constructor raises exactly
when the data width is neither 32 nor 64 bits. -/
theorem c6_config_validation (code cur : Int) (w : Nat) :
    ((∃ b, setWrResponse code = Except.ok b) ↔ code ∈ ([0, 1, 2, 3] : List Int))
    ∧ ((∃ r, setRdResponse code = Except.ok r) ↔ code ∈ ([0, 1, 2, 3] : List Int))
    ∧ (¬ (0 ≤ code ∧ code < 4) →
        applySetWrResponse cur code = cur ∧ applySetRdResponse cur code = cur)
    ∧ ((∃ u, liteSlaveWidthCheck w = Except.ok u) ↔ (w = 32 ∨ w = 64)) := by
  have key : code ∈ ([0, 1, 2, 3] : List Int) ↔ (0 ≤ code ∧ code < 4) := by
    simp only [List.mem_cons, List.not_mem_nil, or_false]
    omega
  by_cases h : 0 ≤ code ∧ code < 4 <;>
    by_cases hw : w = 32 ∨ w = 64 <;>
      simp [setWrResponse, setRdResponse, applySetWrResponse,
        applySetRdResponse, liteSlaveWidthCheck, key, h, hw]

/-- Concrete instance of `c6_config_validation`: `setRdResponse(5)` and
`setWrResponse(-1)` leave the prior codes (0 and 3) unchanged, and a
16-bit data width is rejected at construction. -/
theorem c6_config_validation_witness :
    applySetWrResponse 0 5 = 0 ∧ applySetRdResponse 3 (-1) = 3
    ∧ (liteSlaveWidthCheck 16 = Except.ok () → False) :=
  ⟨((c6_config_validation 5 0 16).2.2.1 (by decide)).1,
   ((c6_config_validation (-1) 3 16).2.2.1 (by decide)).2,
   fun h => by
     have h2 := (c6_config_validation 5 0 16).2.2.2.mp ⟨(), h⟩
     omega⟩

/-- A handshake wait against a ready signal that is constantly high
stops at the first cycle the peer asserts valid. -/
theorem handshakeWithConstReady (valid ready : Nat → Bool)
    (hready : ∀ u, ready u = true) :
    ∀ (fuel t : Nat),
      firstHandshakeCycle valid ready fuel t = firstAssertCycle valid fuel t
  | 0, _ => rfl
  | fuel + 1, t => by
    simp [firstHandshakeCycle, firstAssertCycle, hready t,
      handshakeWithConstReady valid ready hready fuel (t + 1)]

/-- C9: the master drives `BREADY` and `RREADY` to 1 at construction,
never assigns either signal afterwards (so their value stays 1 at every
cycle), and consequently its response-wait loops complete in the first
cycle in which the peer asserts `BVALID` (resp. `RVALID`). -/
theorem c9_ready_always_high :
    (LMSignal.bready, 1) ∈ lmInitAssignments
    ∧ (LMSignal.rready, 1) ∈ lmInitAssignments
    ∧ LMSignal.bready ∉ lmDrivenAfterInit
    ∧ LMSignal.rready ∉ lmDrivenAfterInit
    ∧ (∀ t, lmReadyTrace LMSignal.bready t = true)
    ∧ (∀ t, lmReadyTrace LMSignal.rready t = true)
    ∧ (∀ (bvalid : Nat → Bool) (fuel t : Nat),
        firstHandshakeCycle bvalid (lmReadyTrace LMSignal.bready) fuel t
          = firstAssertCycle bvalid fuel t)
    ∧ (∀ (rvalid : Nat → Bool) (fuel t : Nat),
        firstHandshakeCycle rvalid (lmReadyTrace LMSignal.rready) fuel t
          = firstAssertCycle rvalid fuel t) := by
  refine ⟨by decide, by decide, by decide, by decide,
    fun t => rfl, fun t => rfl, ?_, ?_⟩
  · exact fun bvalid fuel t =>
      handshakeWithConstReady bvalid _ (fun _ => rfl) fuel t
  · exact fun rvalid fuel t =>
      handshakeWithConstReady rvalid _ (fun _ => rfl) fuel t
